import Mathlib

/-!
Verification development for the UltimateSMM_Bot core system.

Shallow embedding of the three core modules:
  * `CORE_SYSTEM/safety_monitor.py` (`SafetyMonitor`)
  * `CORE_SYSTEM/scheduler.py`      (`AutomationScheduler`)
  * `CORE_SYSTEM/api_client.py`     (`APIClient`)

Modelling conventions:
  * Wall-clock instants are `Nat` seconds. Python stores formatted timestamp
    strings and parses them back; storing the instant itself is equivalent.
    `datetime.now() - t < timedelta(hours=1)` becomes `now - t < 3600` on
    `Nat`: for `t ≤ now` the two agree, and for a future `t` Python's
    negative timedelta is `< 1 hour` just as truncated subtraction gives
    `0 < 3600`.
  * Configuration loading (`load_safety_rules`, `load_config`) reads files;
    the loaded record is passed as an explicit argument, with the
    `get_default_rules` / `get_default_config` values as named defaults.
  * File writes and `print` calls carry no state the core reads back;
    functions whose only effect is such output are modelled as returning
    the record they would write.
-/

namespace SafetyMonitor

/-- Safety rules, the shape returned by `get_default_rules` /
`load_safety_rules`. -/
structure SafetyRules where
  max_posts_per_day : Nat
  min_delay_between_actions : Nat
  max_actions_per_hour : Nat
  max_concurrent_actions : Nat
  suspicious_activity_threshold : Nat
  auto_suspend_on_detection : Bool
  rate_limiting : Bool
deriving DecidableEq, Repr

/-- `SafetyMonitor.get_default_rules`. -/
def get_default_rules : SafetyRules :=
  { max_posts_per_day := 50
    min_delay_between_actions := 30
    max_actions_per_hour := 20
    max_concurrent_actions := 5
    suspicious_activity_threshold := 10
    auto_suspend_on_detection := true
    rate_limiting := true }

/-- One entry of `self.safety_log` as built in `log_activity`:
`{"timestamp": now, "type": ..., "platform": ..., "details": ...}`. -/
structure Activity where
  timestamp : Nat
  type : String
  platform : String
  details : String
deriving DecidableEq, Repr

/-- One entry of `self.suspicious_activities` as built in
`check_suspicious_activity`. -/
structure SuspiciousActivity where
  detected_at : Nat
  type : String
  activities_count : Nat
  recommendation : String
deriving DecidableEq, Repr

/-- The mutable state of a `SafetyMonitor` instance (the `monitoring`
flag only gates the background report thread and is omitted). -/
structure MonitorState where
  safety_log : List Activity
  suspicious_activities : List SuspiciousActivity
deriving DecidableEq, Repr

/-- Fresh state from `SafetyMonitor.__init__`. -/
def initMonitor : MonitorState := { safety_log := [], suspicious_activities := [] }

/-- The safety event record built and saved by `trigger_safety_protocol`.
The Python method only prints and appends this record to
`LOGS/safety_events.json`; it mutates neither the monitor nor any
scheduler state. -/
structure SafetyEvent where
  timestamp : Nat
  event : String
  action : String
  duration_minutes : Nat
deriving DecidableEq, Repr

/-- `SafetyMonitor.trigger_safety_protocol`: returns the monitor state it
was invoked on (unchanged) together with the event record it writes to
the safety-events file. -/
def trigger_safety_protocol (st : MonitorState) (now : Nat) : MonitorState × SafetyEvent :=
  (st,
   { timestamp := now
     event := "safety_protocol_activated"
     action := "temporary_suspension"
     duration_minutes := 30 })

/-- The entries of `safety_log` within the trailing hour, as filtered in
both `check_suspicious_activity` and `get_safety_report`. -/
def recent_activities (now : Nat) (log : List Activity) : List Activity :=
  log.filter (fun act => now - act.timestamp < 3600)

/-- `SafetyMonitor.check_suspicious_activity`: counts trailing-hour
entries; appends one `SuspiciousActivity` when the count exceeds the
threshold (when `auto_suspend_on_detection` is set the code additionally
calls `trigger_safety_protocol`, which does not change this state). -/
def check_suspicious_activity (rules : SafetyRules) (now : Nat)
    (st : MonitorState) : MonitorState :=
  let recent := recent_activities now st.safety_log
  if recent.length > rules.suspicious_activity_threshold then
    { st with suspicious_activities := st.suspicious_activities ++
        [{ detected_at := now
           type := "high_frequency_activity"
           activities_count := recent.length
           recommendation := "Suspend operations temporarily" }] }
  else st

/-- The append-then-trim step on `safety_log` performed by
`log_activity` (`self.safety_log.append(...)` followed by
`self.safety_log = self.safety_log[-1000:]` when the length
exceeds 1000). -/
def pushTrim (log : List Activity) (act : Activity) : List Activity :=
  let log1 := log ++ [act]
  if log1.length > 1000 then log1.drop (log1.length - 1000) else log1

/-- `SafetyMonitor.log_activity`: build the entry with the current
timestamp, append it, keep only the last 1000 entries, then run
`check_suspicious_activity`. -/
def log_activity (rules : SafetyRules) (now : Nat)
    (type platform details : String) (st : MonitorState) : MonitorState :=
  let act : Activity := { timestamp := now, type := type
                          platform := platform, details := details }
  check_suspicious_activity rules now
    { st with safety_log := pushTrim st.safety_log act }

/-- One insertion request: the wall clock at the call plus the
`log_activity` arguments. -/
structure Insert where
  now : Nat
  type : String
  platform : String
  details : String
deriving DecidableEq, Repr

/-- The activity entry an insertion produces. -/
def Insert.act (i : Insert) : Activity :=
  { timestamp := i.now, type := i.type, platform := i.platform, details := i.details }

/-- A whole sequence of `log_activity` calls from a fresh monitor. -/
def insertAll (rules : SafetyRules) (inserts : List Insert) : MonitorState :=
  inserts.foldl (fun st i => log_activity rules i.now i.type i.platform i.details st)
    initMonitor

/-- The safety report, as assembled by `get_safety_report`:
`safety_status` starts `"normal"`, is set to `"attention_required"` when
any suspicious activities exist, and afterwards overwritten with
`"high_activity"` when the trailing-hour count exceeds 50. -/
structure SafetyReport where
  generated_at : Nat
  total_activities_monitored : Nat
  suspicious_activities_detected : Nat
  recent_suspicious_activities : List SuspiciousActivity
  safety_status : String
  recommendations : List String
deriving DecidableEq, Repr

/-- `SafetyMonitor.get_safety_report`. -/
def get_safety_report (now : Nat) (st : MonitorState) : SafetyReport :=
  let base : SafetyReport :=
    { generated_at := now
      total_activities_monitored := st.safety_log.length
      suspicious_activities_detected := st.suspicious_activities.length
      recent_suspicious_activities :=
        st.suspicious_activities.drop (st.suspicious_activities.length - 5)
      safety_status := "normal"
      recommendations := [] }
  let step1 : SafetyReport :=
    if st.suspicious_activities.isEmpty then base
    else { base with safety_status := "attention_required"
                     recommendations := base.recommendations ++
                       ["Review recent suspicious activities"] }
  let recent_hour := recent_activities now st.safety_log
  if recent_hour.length > 50 then
    { step1 with safety_status := "high_activity"
                 recommendations := step1.recommendations ++
                   ["Consider increasing delay between actions"] }
  else step1

end SafetyMonitor

namespace Scheduler

/-- Python compares the zero-padded `"HH:MM"` clock strings of
`is_within_operational_hours` lexicographically by code point; `chLe`
is that comparison on the underlying character lists. -/
def chLe : List Char → List Char → Bool
  | [], _ => true
  | _ :: _, [] => false
  | c :: cs, d :: ds =>
    if c.toNat < d.toNat then true
    else if d.toNat < c.toNat then false
    else chLe cs ds

/-- Python string `<=` (lexicographic by code point). -/
def pyStrLe (a b : String) : Bool := chLe a.data b.data

/-- One entry of the `break_schedule` list. -/
structure BreakRule where
  after_minutes : Int
  break_minutes : Nat
  enabled : Bool
deriving DecidableEq, Repr

/-- Scheduler configuration, the shape returned by `get_default_config` /
`load_config`. -/
structure ScheduleConfig where
  op_enabled : Bool
  start_time : String
  end_time : String
  break_schedule : List BreakRule
deriving DecidableEq, Repr

/-- `AutomationScheduler.get_default_config`. -/
def get_default_config : ScheduleConfig :=
  { op_enabled := true
    start_time := "06:00"
    end_time := "23:00"
    break_schedule := [{ after_minutes := 60, break_minutes := 15, enabled := true }] }

/-- Whether invoking a task's stored callable returns normally or raises
(the exception is caught by `run_tasks`'s per-task handler). -/
inductive TaskBehavior where
  | ok
  | raises
deriving DecidableEq, Repr

/-- One entry of `self.tasks` as built by `add_task`. -/
structure Task where
  name : String
  function : TaskBehavior
  interval : Int
  last_run : Option Nat
deriving DecidableEq, Repr

/-- The mutable state of an `AutomationScheduler` instance. -/
structure SchedState where
  is_running : Bool
  tasks : List Task
  break_mode : Bool
  last_break_time : Option Nat
deriving DecidableEq, Repr

/-- Fresh state from `AutomationScheduler.__init__`. -/
def initSched : SchedState :=
  { is_running := false, tasks := [], break_mode := false, last_break_time := none }

/-- The wall clock at one observation: the instant in seconds and its
`"HH:MM"` rendering (both come from the same `datetime.now()` call). -/
structure Clock where
  t : Nat
  hhmm : String
deriving DecidableEq, Repr

/-- `AutomationScheduler.is_within_operational_hours`:
`start_time <= current_time <= end_time` on formatted clock strings,
or `True` when the window is disabled. -/
def is_within_operational_hours (cfg : ScheduleConfig) (nowStr : String) : Bool :=
  if !cfg.op_enabled then true
  else pyStrLe cfg.start_time nowStr && pyStrLe nowStr cfg.end_time

/-- The per-rule test of `should_take_break`.  Python compares
`running_minutes = (now - start).total_seconds()/60 >= after_minutes`
over floats, which for integral seconds is exactly
`now - start >= after_minutes * 60`. -/
def breakRuleFires (start_time now : Nat) (lbt : Option Nat) (r : BreakRule) : Bool :=
  r.enabled
    && decide (((now : Int) - start_time) ≥ r.after_minutes * 60)
    && (match lbt with
        | none => true
        | some lb => decide (((now : Int) - lb) ≥ r.after_minutes * 60))

/-- The `for schedule in break_schedules` scan of `should_take_break`:
first rule that fires, else `None`. -/
def findBreakRule (start_time now : Nat) (lbt : Option Nat) :
    List BreakRule → Option BreakRule
  | [] => none
  | r :: rs =>
    if breakRuleFires start_time now lbt r then some r
    else findBreakRule start_time now lbt rs

/-- `AutomationScheduler.should_take_break` (`False` and `None` are both
falsy to the caller; we return `none` for both). -/
def should_take_break (cfg : ScheduleConfig) (start_time now : Nat)
    (s : SchedState) : Option BreakRule :=
  if s.break_mode then none
  else findBreakRule start_time now s.last_break_time cfg.break_schedule

/-- The countdown loop of `take_break`.  `isRun k` is the value of
`self.is_running` at its k-th read (the flag is flipped externally by
`stop`).  Returns `(reads, sleeps)`: how many reads the loop performed
and how many one-minute sleeps completed; the loop breaks at the first
read that returns false. -/
def takeBreakLoop (isRun : Nat → Bool) : Nat → Nat → Nat × Nat
  | reads, 0 => (reads, reads)
  | reads, remaining + 1 =>
    if isRun reads then takeBreakLoop isRun (reads + 1) remaining
    else (reads + 1, reads)

/-- `AutomationScheduler.take_break`, entered at instant `t0`: sets
`break_mode`, counts down `break_minutes` minutes checking `is_running`
each minute, and only if still running afterwards clears `break_mode`
and records `last_break_time`.  Returns the new state and the instant
when the method returns (`t0` plus sixty seconds per completed sleep). -/
def take_break (isRun : Nat → Bool) (t0 : Nat) (rule : BreakRule)
    (s : SchedState) : SchedState × Nat :=
  let s1 := { s with break_mode := true }
  let loopRes := takeBreakLoop isRun 0 rule.break_minutes
  let tEnd := t0 + 60 * loopRes.2
  if isRun loopRes.1 then
    ({ s1 with break_mode := false, last_break_time := some tEnd,
               is_running := true }, tEnd)
  else
    ({ s1 with is_running := false }, tEnd)

/-- `AutomationScheduler.add_task`: build the task record and append it —
there is no duplicate-name or interval validation in the source. -/
def add_task (task_name : String) (task_function : TaskBehavior)
    (interval_minutes : Int) (s : SchedState) : SchedState :=
  { s with tasks := s.tasks ++
      [{ name := task_name, function := task_function
         interval := interval_minutes, last_run := none }] }

/-- The due test of `run_tasks`:
`last_run is None or (now - last_run).total_seconds() >= interval * 60`. -/
def taskDue (now : Nat) (t : Task) : Bool :=
  match t.last_run with
  | none => true
  | some lr => decide (((now : Int) - lr) ≥ t.interval * 60)

/-- The per-task body of `run_tasks`: a due task's callable is invoked
inside `try`; `last_run` is assigned only when the call returns
normally — a raised exception jumps to the handler first. -/
def runTask (now : Nat) (t : Task) : Task :=
  if taskDue now t then
    match t.function with
    | .ok => { t with last_run := some now }
    | .raises => t
  else t

/-- `AutomationScheduler.run_tasks`: returns immediately when in break
mode or outside operational hours, else processes every task with the
loop-entry clock. -/
def run_tasks (cfg : ScheduleConfig) (clock : Clock) (s : SchedState) : SchedState :=
  if s.break_mode || !is_within_operational_hours cfg clock.hhmm then s
  else { s with tasks := s.tasks.map (runTask clock.t) }

/-- One iteration of the `while self.is_running` body of
`AutomationScheduler.start`: operational-hours check, then break check
(entering `take_break` and resetting the cycle start time), then
`run_tasks`.  Returns the new state and the new cycle start time.
The loop consults no `SafetyMonitor` state — no such reference exists
anywhere in `scheduler.py`. -/
def sched_tick (cfg : ScheduleConfig) (isRun : Nat → Bool) (clock : Clock)
    (start_time : Nat) (s : SchedState) : SchedState × Nat :=
  if !is_within_operational_hours cfg clock.hhmm then (s, start_time)
  else
    match should_take_break cfg start_time clock.t s with
    | some rule => take_break isRun clock.t rule s
    | none => (run_tasks cfg clock s, start_time)

/-- A sequence of scheduler iterations, one per observed clock value. -/
def sched_run (cfg : ScheduleConfig) (isRun : Nat → Bool)
    (clocks : List Clock) (start_time : Nat) (s : SchedState) :
    SchedState × Nat :=
  clocks.foldl (fun acc c => sched_tick cfg isRun c acc.2 acc.1) (s, start_time)

end Scheduler

namespace APIClient

/-- HTTP method argument of `make_request`, already upper-cased
(`method.upper()` is applied before every comparison in the source). -/
inductive Method where
  | GET
  | POST
  | PUT
  | other (name : String)
deriving DecidableEq, Repr

/-- What one attempt of the retry loop observes: a completed HTTP
response with its status code and decoded body, or one of the three
caught `requests` exception classes. -/
inductive AttemptOutcome where
  | resp (status : Nat) (body : String)
  | timeout
  | connError
  | reqError (msg : String)
deriving DecidableEq, Repr

/-- The observable outcome of `make_request`: the returned
`(success, payload-or-message)` pair, how many HTTP attempts were made,
and the durations of the `time.sleep(2 ** attempt)` backoff calls in
order. -/
structure MRResult where
  success : Bool
  message : String
  attempts : Nat
  sleeps : List Nat
deriving DecidableEq, Repr

/-- The `for attempt in range(retries)` loop of `make_request`.
`a` is the next attempt index, `remaining` the iterations left,
`sleeps` the backoff sleeps so far and `lastStatus` the status code of
the most recent bound `response` (none while no HTTP call completed).
When the loop exhausts, the source evaluates
`f"... Status: {response.status_code}"`; with no attempt ever made
(`retries <= 0`) `response` is unbound, the resulting `NameError` is
caught by the outer handler, and the call still returns a failure
pair — the `none` branch of the terminal case. -/
def mrLoop (method : Method) (oracle : Nat → AttemptOutcome) (retries : Nat) :
    Nat → Nat → List Nat → Option Nat → MRResult
  | a, 0, sleeps, lastStatus =>
    match lastStatus with
    | some st =>
      { success := false
        message := "Request failed after " ++ toString retries ++
          " attempts. Status: " ++ toString st
        attempts := a, sleeps := sleeps }
    | none =>
      { success := false
        message := "Unexpected error: name response is not defined"
        attempts := a, sleeps := sleeps }
  | a, remaining + 1, sleeps, lastStatus =>
    match method with
    | .other m =>
      { success := false, message := "Unsupported HTTP method: " ++ m
        attempts := a, sleeps := sleeps }
    | _ =>
      match oracle a with
      | .resp st body =>
        if 200 ≤ st ∧ st < 300 then
          { success := true, message := body, attempts := a + 1, sleeps := sleeps }
        else if 0 < remaining then
          mrLoop method oracle retries (a + 1) remaining (sleeps ++ [2 ^ a]) (some st)
        else
          mrLoop method oracle retries (a + 1) remaining sleeps (some st)
      | .timeout =>
        if 0 < remaining then
          mrLoop method oracle retries (a + 1) remaining (sleeps ++ [2 ^ a]) lastStatus
        else
          { success := false, message := "Request timeout"
            attempts := a + 1, sleeps := sleeps }
      | .connError =>
        if 0 < remaining then
          mrLoop method oracle retries (a + 1) remaining (sleeps ++ [2 ^ a]) lastStatus
        else
          { success := false, message := "Connection error"
            attempts := a + 1, sleeps := sleeps }
      | .reqError m =>
        if 0 < remaining then
          mrLoop method oracle retries (a + 1) remaining (sleeps ++ [2 ^ a]) lastStatus
        else
          { success := false, message := "Request error: " ++ m
            attempts := a + 1, sleeps := sleeps }

/-- `APIClient.make_request` with the network abstracted as `oracle`
(the outcome of each successive attempt).  Python's `range(retries)`
iterates zero times for every `retries <= 0`, which the `Nat`
argument's value `0` covers. -/
def make_request (method : Method) (retries : Nat)
    (oracle : Nat → AttemptOutcome) : MRResult :=
  mrLoop method oracle retries 0 retries [] none

/-- One action request of `batch_execute_actions` /
`execute_social_action`. -/
structure Request where
  platform : String
  action_type : String
  target_url : String
  access_token : String
deriving DecidableEq, Repr

/-- Payload returned by a simulated platform action: the success dict
(whose id embeds the wall clock), the simulated API error dict, or the
unsupported-platform message. -/
inductive Payload where
  | okPayload (id : String) (action : String) (timestamp : Nat)
  | apiError (code : String) (timestamp : Nat)
  | unsupported (msg : String)
deriving DecidableEq, Repr

/-- `APIClient.execute_social_action`: dispatch on the platform name;
`succ` is the simulated-randomness draw (`random.random() < rate`) of
the underlying `simulate_*_action`, `now` the wall clock used for the
generated id and timestamps.  An unknown platform returns a failure
message without calling any simulator. -/
def execute_social_action (req : Request) (succ : Bool) (now : Nat) :
    Bool × Payload :=
  let prefixed : String → Bool × Payload := fun pre =>
    if succ then
      (true, .okPayload (pre ++ toString now) req.action_type now)
    else
      (false, .apiError "API_ERROR" now)
  if req.platform = "facebook" then prefixed "fb_"
  else if req.platform = "instagram" then prefixed "ig_"
  else if req.platform = "twitter" then prefixed "tw_"
  else (false, .unsupported ("Unsupported platform: " ++ req.platform))

/-- One element of the `results` list built by `batch_execute_actions`. -/
structure BatchItem where
  platform : String
  action_type : String
  success : Bool
  result : Payload
  timestamp : Nat
deriving DecidableEq, Repr

/-- The `for action in actions` loop of `batch_execute_actions`:
`rand i` and `clock i` are the randomness draw and wall clock of the
i-th processed request.  Every request is processed and appended,
whether or not the previous ones succeeded. -/
def batchGo (rand : Nat → Bool) (clock : Nat → Nat) :
    Nat → List Request → List BatchItem
  | _, [] => []
  | i, a :: rest =>
    let r := execute_social_action a (rand i) (clock i)
    { platform := a.platform, action_type := a.action_type
      success := r.1, result := r.2, timestamp := clock i } ::
      batchGo rand clock (i + 1) rest

/-- `APIClient.batch_execute_actions`: processes the requests strictly
in order and returns `(True, results)` (no path in the loop raises). -/
def batch_execute_actions (rand : Nat → Bool) (clock : Nat → Nat)
    (actions : List Request) : Bool × List BatchItem :=
  (true, batchGo rand clock 0 actions)

end APIClient

section Instances

open SafetyMonitor Scheduler APIClient

/-- The monitor state of the C1 scenario: eleven `like` activities logged
within one hour under the default rules (threshold 10,
`auto_suspend_on_detection` true), so one suspicious event was detected
and the safety protocol was triggered. -/
def c1_monitor : MonitorState :=
  insertAll get_default_rules (List.replicate 11 ⟨3600000, "like", "facebook", "x"⟩)

/-- The scheduler of the C1 scenario: running, not in break mode, one
registered task that is due. -/
def c1_sched : SchedState :=
  { is_running := true
    tasks := [{ name := "sync", function := .ok, interval := 30, last_run := none }]
    break_mode := false
    last_break_time := none }

/-- The clock of the C1 scenario: inside the default `06:00`–`23:00`
operational window. -/
def c1_clock : Clock := { t := 3600000, hhmm := "12:00" }

/-- Attempt oracle for the C2 counterexample: the first attempt yields a
non-2xx response, the second a 2xx response. -/
def c2ce_oracle : Nat → AttemptOutcome :=
  fun a => if a = 0 then .resp 500 "e" else .resp 200 "ok"

/-- Attempt oracle for the C2 witness: every attempt yields status 500. -/
def c2w_oracle : Nat → AttemptOutcome := fun _ => .resp 500 "srv"

/-- Monitor state for the C4 counterexample: one suspicious event on
record and 51 trailing-hour activities. -/
def c4_monitor : MonitorState :=
  { safety_log := List.replicate 51 ⟨0, "like", "facebook", "d"⟩
    suspicious_activities :=
      [{ detected_at := 0, type := "high_frequency_activity"
         activities_count := 11, recommendation := "Suspend operations temporarily" }] }

/-- Scheduler with one registered task named `"a"`, for C5. -/
def c5_sched : SchedState := add_task "a" .ok 60 initSched

/-- Config with the operational window disabled, so
`is_within_operational_hours` is true at any clock (used by C6). -/
def c6_cfg : ScheduleConfig :=
  { op_enabled := false, start_time := "06:00", end_time := "23:00", break_schedule := [] }

/-- A due task whose callable raises, for C6. -/
def c6_task : Task := { name := "sync", function := .raises, interval := 30, last_run := none }

/-- Scheduler holding `c6_task`, ready to dispatch. -/
def c6_sched : SchedState :=
  { is_running := true, tasks := [c6_task], break_mode := false, last_break_time := none }

/-- A task with a previous `last_run`, for the C6 witness. -/
def c6w_task : Task := { name := "x", function := .ok, interval := 0, last_run := some 3 }

/-- 1000 insertions with distinct timestamps, for the C7 witness. -/
def c7_inserts : List Insert := (List.range 1000).map (fun i => ⟨i, "t", "p", "d"⟩)

/-- A stop signal for the C9 witness: `is_running` reads true for the
first three checks of the countdown and false from the fourth on. -/
def c9_isRun : Nat → Bool := fun k => decide (k < 3)

/-- Scheduler state entering the break of the C9 witness. -/
def c9_sched : SchedState :=
  { is_running := true
    tasks := [{ name := "sync", function := .ok, interval := 30, last_run := none }]
    break_mode := false
    last_break_time := none }

end Instances

section Theorems

open SafetyMonitor Scheduler APIClient

/-- C1: the spec says that once the Safety Monitor has signaled
suspension (a suspicious event detected with `auto_suspend_on_detection`
enabled), the Scheduler's next gate check forces an immediate 30-minute
break.  The code records the detection and the 30-minute suspension
event, but `trigger_safety_protocol` changes no state the scheduler
reads, and `scheduler.py` never consults the monitor: on the very next
iteration the scheduler dispatches the due task and takes no break. -/
theorem C1_scheduler_ignores_safety_protocol :
    get_default_rules.auto_suspend_on_detection = true ∧
    c1_monitor.suspicious_activities.length = 1 ∧
    (trigger_safety_protocol c1_monitor 3600000).1 = c1_monitor ∧
    (trigger_safety_protocol c1_monitor 3600000).2.action = "temporary_suspension" ∧
    (trigger_safety_protocol c1_monitor 3600000).2.duration_minutes = 30 ∧
    sched_tick get_default_config (fun _ => true) c1_clock 3600000 c1_sched =
      ({ c1_sched with tasks :=
          [{ name := "sync", function := .ok, interval := 30, last_run := some 3600000 }] },
        3600000) := by
  refine ⟨rfl, by decide, rfl, rfl, rfl, by decide⟩

/-- C10: with `retries <= 0` the retry loop of `make_request` never
runs, so no HTTP attempt is made; the trailing f-string then references
the unbound `response`, and the resulting `NameError` is caught by the
outer handler and converted into a `(False, message)` failure pair. -/
theorem C10_zero_retries (method : Method) (oracle : Nat → AttemptOutcome) :
    make_request method 0 oracle =
      { success := false
        message := "Unexpected error: name response is not defined"
        attempts := 0
        sleeps := [] } := rfl

/-- C2 counterexample: with `retries = 2` and a first attempt answered
by a non-2xx (status 500) response, `make_request` does not return a
failure after the first attempt: it sleeps `2^0` seconds, retries, and
returns the second attempt's success — contradicting the claim that a
non-transient failed response is never retried. -/
theorem C2_counterexample :
    (make_request .GET 2 c2ce_oracle).success = true ∧
    (make_request .GET 2 c2ce_oracle).attempts = 2 ∧
    (make_request .GET 2 c2ce_oracle).sleeps = [1] := by
  refine ⟨rfl, rfl, rfl⟩

/-- C3 counterexample: under the default threshold 10, logging 12
activities with the same timestamp (all inside one hour) appends two
`SuspiciousActivity` records — one per over-threshold insertion — not
the single record per breach crossing the claim states. -/
theorem C3_counterexample :
    (insertAll get_default_rules
        (List.replicate 12 ⟨0, "like", "facebook", "d"⟩)).suspicious_activities.length = 2 ∧
    (insertAll get_default_rules
        (List.replicate 12 ⟨0, "like", "facebook", "d"⟩)).suspicious_activities.length ≠ 1 := by
  refine ⟨by decide, by decide⟩

/-- C4 counterexample: a state with one suspicious event on record and
51 trailing-hour activities reports `"high_activity"`, not
`"attention_required"`: the report code assigns `"attention_required"`
first and then overwrites it, so high activity takes precedence —
the opposite of the claimed priority. -/
theorem C4_counterexample :
    c4_monitor.suspicious_activities ≠ [] ∧
    (get_safety_report 0 c4_monitor).safety_status = "high_activity" ∧
    (get_safety_report 0 c4_monitor).safety_status ≠ "attention_required" := by
  refine ⟨by decide, by decide, by decide⟩

/-- C5 counterexample: registering a task whose name `"a"` already
exists and whose interval is 0 is not rejected — `add_task` appends it
unconditionally and the task list changes. -/
theorem C5_counterexample :
    c5_sched.tasks.map Task.name = ["a"] ∧
    (add_task "a" .ok 0 c5_sched).tasks.length = 2 ∧
    (add_task "a" .ok 0 c5_sched).tasks ≠ c5_sched.tasks := by
  refine ⟨by decide, by decide, by decide⟩

/-- C6 counterexample: a due task whose callable raises is dispatched by
`run_tasks`, the exception is caught — and `last_run` is NOT advanced
(it stays `none`), contradicting the claim that a caught task failure
still advances `lastRun`. -/
theorem C6_counterexample :
    taskDue 100 c6_task = true ∧
    run_tasks c6_cfg { t := 100, hhmm := "12:00" } c6_sched = c6_sched ∧
    ((run_tasks c6_cfg { t := 100, hhmm := "12:00" } c6_sched).tasks.map Task.last_run) =
      [none] := by
  refine ⟨by decide, by decide, by decide⟩

/-- C4 amended: the report status is `"high_activity"` whenever the
trailing-hour count exceeds 50, even when suspicious events exist
(the later assignment overwrites the earlier one); it is
`"attention_required"` only when suspicious events exist and the
trailing-hour count is at most 50; otherwise `"normal"`. -/
theorem C4_amended_status_priority (now : Nat) (st : MonitorState) :
    (get_safety_report now st).safety_status =
      (if (recent_activities now st.safety_log).length > 50 then "high_activity"
       else if st.suspicious_activities.isEmpty then "normal"
       else "attention_required") := by
  unfold get_safety_report
  by_cases h1 : st.suspicious_activities.isEmpty <;>
    by_cases h2 : (recent_activities now st.safety_log).length > 50 <;>
      simp [h1, h2]

/-- C5 amended: `add_task` performs no validation at all — even when the
name is already registered or the interval is nonpositive, the task is
appended and the task list grows by one (it is never left unchanged). -/
theorem C5_amended_no_validation (s : SchedState) (nm : String)
    (fn : TaskBehavior) (iv : Int)
    (h : nm ∈ s.tasks.map Task.name ∨ iv ≤ 0) :
    (add_task nm fn iv s).tasks =
      s.tasks ++ [{ name := nm, function := fn, interval := iv, last_run := none }] ∧
    (add_task nm fn iv s).tasks.length = s.tasks.length + 1 := by
  refine ⟨rfl, ?_⟩
  simp [add_task]

/-- C5 witness: duplicate name `"a"` and interval 0 — both rejection
conditions of the claim hold, and the task is still appended. -/
theorem C5_witness :
    ("a" ∈ c5_sched.tasks.map Task.name ∨ (0 : Int) ≤ 0) ∧
    ((add_task "a" .ok 0 c5_sched).tasks =
        c5_sched.tasks ++
          [{ name := "a", function := .ok, interval := 0, last_run := none }] ∧
      (add_task "a" .ok 0 c5_sched).tasks.length = c5_sched.tasks.length + 1) :=
  ⟨Or.inl (by decide),
   C5_amended_no_validation c5_sched "a" .ok 0 (Or.inl (by decide))⟩

/-- C6 amended: a dispatched task's `last_run` is set to the tick clock
only when its callable returns without raising; a caught task failure
leaves `last_run` unchanged (the task will be retried next tick).
When `last_run` does change it moves to the current clock, so with a
clock at or after the previous `last_run` it only advances forward.
`run_tasks` applies this to every task exactly when the gate (no break
mode, inside operational hours) passes. -/
theorem C6_amended_lastrun_on_success (now : Nat) (t : Task)
    (cfg : ScheduleConfig) (clock : Clock) (s : SchedState) :
    ((runTask now t).last_run =
      (if taskDue now t = true ∧ t.function = .ok then some now else t.last_run)) ∧
    (∀ lr lr', t.last_run = some lr → lr ≤ now →
      (runTask now t).last_run = some lr' → lr ≤ lr') ∧
    ((run_tasks cfg clock s).tasks =
      (if (s.break_mode || !is_within_operational_hours cfg clock.hhmm) = true
       then s.tasks else s.tasks.map (runTask clock.t))) := by
  refine ⟨?_, ?_, ?_⟩
  · unfold runTask
    by_cases hd : taskDue now t = true
    · cases hf : t.function <;> simp [hd, hf]
    · simp [hd]
  · intro lr lr' hlr hle hlr'
    unfold runTask at hlr'
    by_cases hd : taskDue now t = true
    · cases hf : t.function <;> simp [hd, hf, hlr] at hlr' <;> omega
    · simp [hd, hlr] at hlr'
      omega
  · unfold run_tasks
    by_cases hg : (s.break_mode || !is_within_operational_hours cfg clock.hhmm) = true <;>
      simp [hg]

/-- C6 witness: a task with `last_run = some 3` and interval 0 is due at
clock 5, its callable returns normally, and `last_run` advances from 3
to 5. -/
theorem C6_witness :
    ((runTask 5 c6w_task).last_run =
      (if taskDue 5 c6w_task = true ∧ c6w_task.function = .ok then some 5
       else c6w_task.last_run)) ∧
    c6w_task.last_run = some 3 ∧ 3 ≤ 5 ∧
    (runTask 5 c6w_task).last_run = some 5 ∧ (3 : Nat) ≤ 5 :=
  ⟨(C6_amended_lastrun_on_success 5 c6w_task c6_cfg ⟨100, "12:00"⟩ c6_sched).1,
   rfl, by decide, rfl,
   (C6_amended_lastrun_on_success 5 c6w_task c6_cfg ⟨100, "12:00"⟩ c6_sched).2.1
     3 5 rfl (by decide) rfl⟩

/-- Projection: `log_activity` changes `safety_log` exactly by the
append-and-trim step (`check_suspicious_activity` never touches it). -/
theorem log_activity_log (rules : SafetyRules) (now : Nat) (ty pl de : String)
    (st : MonitorState) :
    (log_activity rules now ty pl de st).safety_log =
      pushTrim st.safety_log ⟨now, ty, pl, de⟩ := by
  unfold log_activity check_suspicious_activity
  dsimp only
  split <;> rfl

/-- Projection: `log_activity` appends one suspicious event exactly when
the post-insert trailing-hour count exceeds the threshold. -/
theorem log_activity_sus_len (rules : SafetyRules) (now : Nat)
    (ty pl de : String) (st : MonitorState) :
    (log_activity rules now ty pl de st).suspicious_activities.length =
      st.suspicious_activities.length +
        (if (recent_activities now (pushTrim st.safety_log ⟨now, ty, pl, de⟩)).length >
            rules.suspicious_activity_threshold then 1 else 0) := by
  unfold log_activity check_suspicious_activity
  dsimp only
  split <;> simp

/-- Unrolling one insertion at the end of a sequence. -/
theorem insertAll_snoc (rules : SafetyRules) (l : List Insert) (i : Insert) :
    insertAll rules (l ++ [i]) =
      log_activity rules i.now i.type i.platform i.details (insertAll rules l) := by
  simp [insertAll, List.foldl_append]

/-- After `n ≤ 1000` calls of `log_activity` with the same wall clock
from a fresh monitor, the log holds the `n` entries and the number of
suspicious events is `n` minus the threshold (truncated): one new event
was appended by each insertion whose trailing-hour count exceeded the
threshold. -/
theorem insertAll_same_ts (rules : SafetyRules) (now : Nat) (ty pl de : String) :
    ∀ n : Nat, n ≤ 1000 →
      (insertAll rules (List.replicate n ⟨now, ty, pl, de⟩)).safety_log =
          List.replicate n (⟨now, ty, pl, de⟩ : Activity) ∧
        (insertAll rules (List.replicate n ⟨now, ty, pl, de⟩)).suspicious_activities.length =
          n - rules.suspicious_activity_threshold := by
  intro n
  induction n with
  | zero => intro _; exact ⟨rfl, by simp [insertAll, initMonitor]⟩
  | succ m ih =>
    intro hle
    obtain ⟨hlog, hsus⟩ := ih (by omega)
    rw [List.replicate_succ', insertAll_snoc]
    dsimp only
    have hpush : pushTrim
        (insertAll rules (List.replicate m ⟨now, ty, pl, de⟩)).safety_log
        (⟨now, ty, pl, de⟩ : Activity) =
        List.replicate (m + 1) (⟨now, ty, pl, de⟩ : Activity) := by
      rw [hlog]
      unfold pushTrim
      dsimp only
      rw [← List.replicate_succ']
      rw [if_neg]
      simp only [List.length_replicate]
      omega
    have hrecent : recent_activities now
        (List.replicate (m + 1) (⟨now, ty, pl, de⟩ : Activity)) =
        List.replicate (m + 1) (⟨now, ty, pl, de⟩ : Activity) := by
      unfold recent_activities
      rw [List.filter_replicate]
      simp
    constructor
    · rw [log_activity_log, hpush]
    · rw [log_activity_sus_len, hpush, hsus, hrecent]
      simp only [List.length_replicate]
      by_cases h : m + 1 > rules.suspicious_activity_threshold
      · rw [if_pos h]; omega
      · rw [if_neg h]; omega

/-- C3 amended: once the trailing-hour count exceeds the threshold, one
new `SuspiciousActivity` is appended by EVERY further insertion, not one
per breach crossing: inserting `threshold + k` entries within one hour
(`1 ≤ k`, list still within the 1000-entry ring) yields exactly `k` new
suspicious events. -/
theorem C3_amended_one_event_per_insert (rules : SafetyRules)
    (now : Nat) (ty pl de : String) (k : Nat) (hk : 1 ≤ k)
    (hb : rules.suspicious_activity_threshold + k ≤ 1000) :
    (insertAll rules
        (List.replicate (rules.suspicious_activity_threshold + k)
          ⟨now, ty, pl, de⟩)).suspicious_activities.length = k := by
  have h := (insertAll_same_ts rules now ty pl de
    (rules.suspicious_activity_threshold + k) hb).2
  omega

/-- C3 witness: default rules (threshold 10), `k = 2`: twelve
same-timestamp insertions yield exactly two suspicious events. -/
theorem C3_witness :
    1 ≤ 2 ∧ get_default_rules.suspicious_activity_threshold + 2 ≤ 1000 ∧
    (insertAll get_default_rules
        (List.replicate (get_default_rules.suspicious_activity_threshold + 2)
          ⟨7, "like", "facebook", "d"⟩)).suspicious_activities.length = 2 :=
  ⟨by decide, by decide,
   C3_amended_one_event_per_insert get_default_rules 7 "like" "facebook" "d" 2
     (by decide) (by decide)⟩

/-- `pushTrim` in closed form: append, then drop everything before the
last 1000 entries (dropping nothing when the result still fits). -/
theorem pushTrim_eq (log : List Activity) (act : Activity) :
    pushTrim log act = (log ++ [act]).drop (log.length + 1 - 1000) := by
  unfold pushTrim
  dsimp only
  by_cases h : (log ++ [act]).length > 1000
  · rw [if_pos h]
    simp
  · rw [if_neg h]
    simp only [List.length_append, List.length_cons, List.length_nil] at h
    have h0 : log.length + 1 - 1000 = 0 := by omega
    rw [h0, List.drop_zero]

/-- Length after one append-and-trim step. -/
theorem pushTrim_length (log : List Activity) (act : Activity) :
    (pushTrim log act).length = min (log.length + 1) 1000 := by
  rw [pushTrim_eq]
  simp only [List.length_drop, List.length_append, List.length_cons, List.length_nil]
  omega

/-- Folding append-and-trim over any insertion list keeps exactly the
last 1000 of the concatenation. -/
theorem foldl_pushTrim (l : List Activity) :
    ∀ s : List Activity, s.length ≤ 1000 →
      l.foldl pushTrim s = (s ++ l).drop (s.length + l.length - 1000) := by
  induction l with
  | nil =>
    intro s hs
    simp only [List.foldl_nil, List.append_nil, List.length_nil, Nat.add_zero]
    rw [Nat.sub_eq_zero_of_le hs, List.drop_zero]
  | cons a l ih =>
    intro s hs
    rw [List.foldl_cons, ih (pushTrim s a) (by rw [pushTrim_length]; omega)]
    rw [pushTrim_length, pushTrim_eq]
    have hta : (s ++ [a] ++ l).drop (s.length + 1 - 1000) =
        (s ++ [a]).drop (s.length + 1 - 1000) ++ l := by
      rw [List.drop_append_eq_append_drop]
      have hk : s.length + 1 - 1000 - (s ++ [a]).length = 0 := by
        simp only [List.length_append, List.length_cons, List.length_nil]
        omega
      rw [hk, List.drop_zero]
    rw [← hta, List.drop_drop]
    have hsplit : s ++ [a] ++ l = s ++ a :: l := by
      simp
    rw [hsplit]
    have harith : s.length + 1 - 1000 + (min (s.length + 1) 1000 + l.length - 1000) =
        s.length + (a :: l).length - 1000 := by
      simp only [List.length_cons]
      omega
    rw [harith]

/-- Projection of a whole insertion sequence onto the activity ring. -/
theorem insertAll_log (rules : SafetyRules) (l : List Insert) :
    (insertAll rules l).safety_log = (l.map Insert.act).foldl pushTrim [] := by
  suffices h : ∀ st : MonitorState,
      (l.foldl (fun st i => log_activity rules i.now i.type i.platform i.details st)
        st).safety_log = (l.map Insert.act).foldl pushTrim st.safety_log by
    exact h initMonitor
  induction l with
  | nil => intro st; rfl
  | cons i l ih =>
    intro st
    rw [List.foldl_cons, List.map_cons, List.foldl_cons, ih]
    rw [log_activity_log]
    rfl

/-- C7: the activity ring never exceeds 1000 entries post-insert, and
after `N ≥ 1000` insertions it holds exactly the last 1000 — the oldest
remaining entry being the `(N-999)`-th inserted (index `N-1000`). -/
theorem C7_ring_bound (rules : SafetyRules) (inserts : List Insert) :
    (insertAll rules inserts).safety_log.length ≤ 1000 ∧
    (1000 ≤ inserts.length →
      (insertAll rules inserts).safety_log.length = 1000 ∧
      (insertAll rules inserts).safety_log =
        (inserts.map Insert.act).drop (inserts.length - 1000) ∧
      (insertAll rules inserts).safety_log.head? =
        (inserts.map Insert.act).get? (inserts.length - 1000)) := by
  have hlog := insertAll_log rules inserts
  have hfold := foldl_pushTrim (inserts.map Insert.act) [] (by simp)
  simp only [List.nil_append, List.length_nil, Nat.zero_add, List.length_map] at hfold
  rw [hlog, hfold]
  refine ⟨?_, fun h => ⟨?_, rfl, ?_⟩⟩
  · simp only [List.length_drop, List.length_map]
    omega
  · simp only [List.length_drop, List.length_map]
    omega
  · rw [List.head?_eq_getElem?, List.getElem?_drop, List.get?_eq_getElem?]
    simp

/-- C7 witness: one thousand insertions with distinct timestamps. -/
theorem C7_witness :
    1000 ≤ c7_inserts.length ∧
    ((insertAll get_default_rules c7_inserts).safety_log.length = 1000 ∧
      (insertAll get_default_rules c7_inserts).safety_log =
        (c7_inserts.map Insert.act).drop (c7_inserts.length - 1000) ∧
      (insertAll get_default_rules c7_inserts).safety_log.head? =
        (c7_inserts.map Insert.act).get? (c7_inserts.length - 1000)) :=
  ⟨by simp [c7_inserts],
   (C7_ring_bound get_default_rules c7_inserts).2 (by simp [c7_inserts])⟩

/-- The batch loop emits exactly one result per request. -/
theorem batchGo_length (rand : Nat → Bool) (clock : Nat → Nat) :
    ∀ (l : List Request) (j : Nat), (batchGo rand clock j l).length = l.length := by
  intro l
  induction l with
  | nil => intro j; rfl
  | cons a rest ih =>
    intro j
    simp only [batchGo, List.length_cons, ih (j + 1)]

/-- Pointwise description of the batch loop's output. -/
theorem batchGo_get? (rand : Nat → Bool) (clock : Nat → Nat) :
    ∀ (l : List Request) (j i : Nat),
      (batchGo rand clock j l).get? i =
        (l.get? i).map (fun a =>
          { platform := a.platform
            action_type := a.action_type
            success := (execute_social_action a (rand (j + i)) (clock (j + i))).1
            result := (execute_social_action a (rand (j + i)) (clock (j + i))).2
            timestamp := clock (j + i) }) := by
  intro l
  induction l with
  | nil => intro j i; simp [batchGo]
  | cons a rest ih =>
    intro j i
    cases i with
    | zero => simp [batchGo]
    | succ i =>
      have hidx : j + 1 + i = j + (i + 1) := by omega
      simp only [batchGo, List.get?_cons_succ, ih (j + 1) i, hidx]

/-- C8: `batch_execute_actions` returns `True` with one outcome per
input request, in input order: the i-th outcome is built from the i-th
request (same platform and action type, success and payload from that
request's own execution) — and a failing request does not abort the
batch, since this holds for every request sequence, including ones
whose draws or platforms make any prefix fail. -/
theorem C8_batch_order (rand : Nat → Bool) (clock : Nat → Nat)
    (actions : List Request) :
    (batch_execute_actions rand clock actions).1 = true ∧
    (batch_execute_actions rand clock actions).2.length = actions.length ∧
    (∀ i : Nat, ((batch_execute_actions rand clock actions).2.get? i).isSome =
      (actions.get? i).isSome) ∧
    (∀ i : Nat, (batch_execute_actions rand clock actions).2.get? i =
      (actions.get? i).map (fun a =>
        { platform := a.platform
          action_type := a.action_type
          success := (execute_social_action a (rand i) (clock i)).1
          result := (execute_social_action a (rand i) (clock i)).2
          timestamp := clock i })) := by
  refine ⟨rfl, batchGo_length rand clock actions 0, ?_, ?_⟩
  · intro i
    have h := batchGo_get? rand clock actions 0 i
    simp only [Nat.zero_add] at h
    rw [show (batch_execute_actions rand clock actions).2 = batchGo rand clock 0 actions from rfl, h]
    cases actions.get? i <;> rfl
  · intro i
    have h := batchGo_get? rand clock actions 0 i
    simp only [Nat.zero_add] at h
    exact h

/-- Invariant of the retry loop when every remaining attempt is answered
by a non-2xx response: all iterations run, with a backoff sleep after
every non-final one, and the loop falls through to the
`"Request failed after ..."` outcome built from the final status. -/
theorem mrLoop_allFail (oracle : Nat → AttemptOutcome) (retries : Nat)
    (status : Nat → Nat) (bodyf : Nat → String)
    (hor : ∀ j, j < retries → oracle j = .resp (status j) (bodyf j))
    (hfail : ∀ j, j < retries → ¬(200 ≤ status j ∧ status j < 300)) :
    ∀ remaining a : Nat, a + remaining = retries → 1 ≤ remaining →
      ∀ (sleeps : List Nat) (lastStatus : Option Nat),
        mrLoop .GET oracle retries a remaining sleeps lastStatus =
          { success := false
            message := "Request failed after " ++ toString retries ++
              " attempts. Status: " ++ toString (status (retries - 1))
            attempts := retries
            sleeps := sleeps ++ (List.range' a (remaining - 1)).map (fun j => 2 ^ j) } := by
  intro remaining
  induction remaining with
  | zero => intro a _ h1; omega
  | succ r ih =>
    intro a ha _ sleeps lastStatus
    have haret : a < retries := by omega
    rw [mrLoop]
    rw [hor a haret]
    dsimp only
    rw [if_neg (hfail a haret)]
    cases r with
    | zero =>
      rw [if_neg (by omega)]
      rw [mrLoop]
      have hra : a + 1 = retries := by omega
      have hrs : a = retries - 1 := by omega
      simp [hra, hrs]
      omega
    | succ r2 =>
      rw [if_pos (by omega)]
      rw [ih (a + 1) (by omega) (by omega)]
      have hrange : List.range' a (r2 + 2 - 1) = a :: List.range' (a + 1) (r2 + 1 - 1) := by
        have h1 : r2 + 2 - 1 = (r2 + 1 - 1) + 1 := by omega
        rw [h1, List.range'_succ]
      rw [hrange]
      simp
    intro m hm
    exact Method.noConfusion hm

/-- C2 amended: a failed (non-2xx) response IS retried, exactly like a
transient error: with `retries = r ≥ 1` and every attempt answered by a
non-2xx response, `make_request` makes all `r` attempts, sleeps
`2^attempt` seconds after each non-final one, and only then returns a
failed outcome quoting the final status — it is not returned after the
first attempt. -/
theorem C2_amended_non2xx_retried (retries : Nat) (hr : 1 ≤ retries)
    (oracle : Nat → AttemptOutcome) (status : Nat → Nat) (bodyf : Nat → String)
    (hor : ∀ j, j < retries → oracle j = .resp (status j) (bodyf j))
    (hfail : ∀ j, j < retries → ¬(200 ≤ status j ∧ status j < 300)) :
    make_request .GET retries oracle =
      { success := false
        message := "Request failed after " ++ toString retries ++
          " attempts. Status: " ++ toString (status (retries - 1))
        attempts := retries
        sleeps := (List.range (retries - 1)).map (fun j => 2 ^ j) } := by
  unfold make_request
  rw [mrLoop_allFail oracle retries status bodyf hor hfail retries 0 (by omega) hr [] none]
  rw [List.range_eq_range']
  simp

/-- C2 witness: three attempts against a server that always answers 500
give three HTTP attempts, sleeps of 1 and 2 seconds, and the final
failure message. -/
theorem C2_witness :
    1 ≤ 3 ∧
    make_request .GET 3 c2w_oracle =
      { success := false
        message := "Request failed after " ++ toString 3 ++
          " attempts. Status: " ++ toString (500 : Nat)
        attempts := 3
        sleeps := (List.range 2).map (fun j => 2 ^ j) } :=
  ⟨by decide,
   C2_amended_non2xx_retried 3 (by decide) c2w_oracle (fun _ => 500) (fun _ => "srv")
     (fun j _ => rfl) (fun j _ => by simp)⟩

/-- If the `is_running` flag goes false at some check inside the
countdown window (and, stop being one-shot, stays false), the flag also
reads false at the final post-loop check. -/
theorem takeBreakLoop_stop (isRun : Nat → Bool)
    (hmono : ∀ i j, i ≤ j → isRun j = true → isRun i = true) :
    ∀ remaining reads : Nat,
      (∃ k, reads ≤ k ∧ k < reads + remaining ∧ isRun k = false) →
      isRun (takeBreakLoop isRun reads remaining).1 = false := by
  intro remaining
  induction remaining with
  | zero =>
    intro reads ⟨k, h1, h2, _⟩
    omega
  | succ r ih =>
    intro reads ⟨k, h1, h2, h3⟩
    rw [takeBreakLoop]
    cases hr : isRun reads with
    | true =>
      rw [if_pos rfl]
      apply ih (reads + 1)
      refine ⟨k, ?_, by omega, h3⟩
      rcases Nat.eq_or_lt_of_le h1 with heq | hlt
      · subst heq
        rw [hr] at h3
        cases h3
      · omega
    | false =>
      rw [if_neg Bool.false_ne_true]
      cases hx : isRun (reads + 1) with
      | false => rfl
      | true =>
        have := hmono reads (reads + 1) (by omega) hx
        rw [hr] at this
        cases this

/-- A tick in break mode changes nothing: `should_take_break` returns a
falsy value immediately and `run_tasks` returns before touching any
task. -/
theorem sched_tick_break (cfg : ScheduleConfig) (isRun : Nat → Bool)
    (clock : Clock) (st : Nat) (s : SchedState) (hb : s.break_mode = true) :
    sched_tick cfg isRun clock st s = (s, st) := by
  unfold sched_tick should_take_break run_tasks
  rw [hb]
  by_cases hw : is_within_operational_hours cfg clock.hhmm <;> simp [hw]

/-- Any run of ticks from a break-mode state changes nothing. -/
theorem sched_run_break (cfg : ScheduleConfig) (isRun : Nat → Bool)
    (clocks : List Clock) :
    ∀ (st : Nat) (s : SchedState), s.break_mode = true →
      sched_run cfg isRun clocks st s = (s, st) := by
  induction clocks with
  | nil => intro st s _; rfl
  | cons c cs ih =>
    intro st s hb
    unfold sched_run
    rw [List.foldl_cons]
    dsimp only
    rw [sched_tick_break cfg isRun c st s hb]
    exact ih st s hb

/-- C9: a stop signaled during the break countdown makes `take_break`
exit with `break_mode` still true and `last_break_time` untouched; if
the instance is then started again, every subsequent `run_tasks` call
(and in fact every whole scheduler tick) leaves the state unchanged, so
no task is ever dispatched again. -/
theorem C9_stop_during_break (s : SchedState) (rule : BreakRule)
    (isRun : Nat → Bool) (t0 : Nat)
    (hmono : ∀ i j, i ≤ j → isRun j = true → isRun i = true)
    (hstop : ∃ k, k < rule.break_minutes ∧ isRun k = false) :
    (take_break isRun t0 rule s).1.break_mode = true ∧
    (take_break isRun t0 rule s).1.last_break_time = s.last_break_time ∧
    (take_break isRun t0 rule s).1.is_running = false ∧
    (∀ (cfg : ScheduleConfig) (clock : Clock),
      run_tasks cfg clock
          { (take_break isRun t0 rule s).1 with is_running := true } =
        { (take_break isRun t0 rule s).1 with is_running := true }) ∧
    (∀ (cfg : ScheduleConfig) (isRun2 : Nat → Bool) (clocks : List Clock) (st : Nat),
      sched_run cfg isRun2 clocks st
          { (take_break isRun t0 rule s).1 with is_running := true } =
        ({ (take_break isRun t0 rule s).1 with is_running := true }, st)) := by
  obtain ⟨k, hk, hkf⟩ := hstop
  have hfin : isRun (takeBreakLoop isRun 0 rule.break_minutes).1 = false :=
    takeBreakLoop_stop isRun hmono rule.break_minutes 0 ⟨k, by omega, by omega, hkf⟩
  have hstate : (take_break isRun t0 rule s).1 =
      { s with break_mode := true, is_running := false } := by
    unfold take_break
    dsimp only
    rw [if_neg (by simp [hfin])]
  rw [hstate]
  refine ⟨rfl, rfl, rfl, ?_, ?_⟩
  · intro cfg clock
    unfold run_tasks
    rfl
  · intro cfg isRun2 clocks st
    exact sched_run_break cfg isRun2 clocks st _ rfl

/-- C9 witness: a 15-minute break whose countdown is stopped at its
fourth `is_running` check; afterwards a restart plus two ticks inside
the default operational window dispatch nothing. -/
theorem C9_witness :
    (∃ k, k < (15 : Nat) ∧ c9_isRun k = false) ∧
    (take_break c9_isRun 1000 ⟨60, 15, true⟩ c9_sched).1.break_mode = true ∧
    (take_break c9_isRun 1000 ⟨60, 15, true⟩ c9_sched).1.last_break_time = none ∧
    run_tasks get_default_config ⟨2000, "12:00"⟩
        { (take_break c9_isRun 1000 ⟨60, 15, true⟩ c9_sched).1 with is_running := true } =
      { (take_break c9_isRun 1000 ⟨60, 15, true⟩ c9_sched).1 with is_running := true } ∧
    sched_run get_default_config c9_isRun
        [⟨2000, "12:00"⟩, ⟨2060, "12:01"⟩] 1000
        { (take_break c9_isRun 1000 ⟨60, 15, true⟩ c9_sched).1 with is_running := true } =
      ({ (take_break c9_isRun 1000 ⟨60, 15, true⟩ c9_sched).1 with is_running := true }, 1000) := by
  have hmono : ∀ i j, i ≤ j → c9_isRun j = true → c9_isRun i = true := by
    intro i j hij hj
    simp only [c9_isRun, decide_eq_true_eq] at hj ⊢
    omega
  have h := C9_stop_during_break c9_sched ⟨60, 15, true⟩ c9_isRun 1000 hmono
    ⟨3, by decide, by decide⟩
  exact ⟨⟨3, by decide, by decide⟩, h.1, h.2.1.trans rfl,
    h.2.2.2.1 get_default_config ⟨2000, "12:00"⟩,
    h.2.2.2.2 get_default_config c9_isRun [⟨2000, "12:00"⟩, ⟨2060, "12:01"⟩] 1000⟩

end Theorems
